import Mathlib

/-!
Shallow embedding of `custom_components/ideenergy/barrier.py`.

Timestamps (`datetime.datetime`) and durations (`datetime.timedelta`) are
modelled as integer numbers of seconds since the UNIX epoch
(`dt_util.utc_from_timestamp(0)` becomes `0`).  Python's `datetime`
arithmetic on such values (subtraction, `total_seconds`, comparison) is
exact, so nothing is lost at whole-second granularity; the single
division in the source, `self._max_age / 2`, is modelled as integer
division, which agrees with `timedelta` division whenever `max_age` is a
whole even number of seconds (sub-second remainders are below the
model's resolution).

`dt_util.as_local` converts an instant to the configured local time zone;
the model carries the ambient local-zone offset (in whole seconds) as the
field `tz_offset` of the barrier's configuration record, and the
`.minute` field of the resulting wall-clock time is extracted with floor
division and modulus, exactly as a wall clock does.

Raising `BarrierDeniedError(code, reason)` versus returning `None` is
modelled by the result type `CheckResult`; the human-readable `reason`
string is not part of the model, the enumerated `code` is.
-/

/-- Model of `dt_util.as_local(now).minute`: the minute-of-hour field of the wall
clock obtained by shifting the instant `now` by the local-zone offset
`off` (in seconds). -/
def as_local_minute (off : ℤ) (now : ℤ) : ℤ :=
  ((now + off).fdiv 60) % 60

/-- Outcome of a `check` call: normal return (`allow`) or
`BarrierDeniedError` carrying an enumerated deny code (`deny`). -/
inductive CheckResult (ε : Type) where
  | allow : CheckResult ε
  | deny (code : ε) : CheckResult ε
deriving DecidableEq

/-- The `TimeDeltaBarrierDenyError` enum from the source. -/
inductive TimeDeltaBarrierDenyError where
  | NO_MAX_AGE
deriving DecidableEq

/-- The `TimeWindowBarrierDenyError` enum from the source. -/
inductive TimeWindowBarrierDenyError where
  | UPDATE_WINDOW_CLOSED
  | COOLDOWN
  | NO_DELTA
deriving DecidableEq

/-- Values appearing in a `dump()` mapping. -/
inductive AttrValue where
  | duration (d : ℤ)
  | timestamp (t : ℤ)
  | intVal (n : ℤ)
  | boolVal (b : Bool)
  | windowVal (w : ℤ × ℤ)
deriving DecidableEq

def ATTR_MAX_AGE : String := "max_age"

def ATTR_MAX_RETRIES : String := "max_retries"

def ATTR_COOLDOWN : String := "cooldown"

def ATTR_FORCED : String := "forced"

def ATTR_LAST_SUCCESS : String := "last_success"

def ATTR_RETRY : String := "retry"

def ATTR_ALLOWED_WINDOW_MINUTES : String := "allowed_window_minutes"

/-- Immutable configuration of a `TimeWindowBarrier`
(`allowed_window_minutes`, `max_retries`, `max_age` from `__init__`),
plus the ambient local-time-zone offset in seconds used by
`dt_util.as_local`. -/
structure TWConfig where
  allowed_window_minutes : ℤ × ℤ
  max_retries : ℤ
  max_age : ℤ
  tz_offset : ℤ
deriving DecidableEq

/-- Mutable state of a `TimeWindowBarrier`: `_force_next`, `_failures`,
`_last_success`, `_cooldown`. -/
structure TWState where
  force_next : Bool
  failures : ℤ
  last_success : ℤ
  cooldown : ℤ
deriving DecidableEq

/-- State set up by `TimeWindowBarrier.__init__`: `force_next = False`,
`failures = 0`, `last_success = cooldown = utc_from_timestamp(0)`. -/
def TWState.init : TWState :=
  { force_next := false, failures := 0, last_success := 0, cooldown := 0 }

/-- Model of `TimeWindowBarrier.check(now)`.  Returns the post-call state (the
lazy cooldown reset may write `_failures`) together with the decision.
The rule order mirrors the source: lazy cooldown reset, forced,
cooldown, retrying, update window, no delta. -/
def TimeWindowBarrier.check (cfg : TWConfig) (s : TWState) (now : ℤ) :
    TWState × CheckResult TimeWindowBarrierDenyError :=
  let update_window_is_open : Bool :=
    decide (cfg.allowed_window_minutes.1 ≤ as_local_minute cfg.tz_offset now) &&
    decide (as_local_minute cfg.tz_offset now ≤ cfg.allowed_window_minutes.2)
  let last_success_age : ℤ := now - s.last_success
  let min_age : ℤ :=
    (cfg.allowed_window_minutes.2 - cfg.allowed_window_minutes.1) * 60
  -- "Check if cooldown has been reached": lazy reset of the failure counter
  let self : TWState :=
    if s.failures ≥ cfg.max_retries ∧ now ≥ s.cooldown then
      { s with failures := 0 }
    else s
  if self.force_next then
    (self, .allow)
  else if now < self.cooldown then
    (self, .deny .COOLDOWN)
  else if self.failures > 0 ∧ self.failures < cfg.max_retries then
    (self, .allow)
  else if ¬ update_window_is_open then
    (self, .deny .UPDATE_WINDOW_CLOSED)
  else if last_success_age ≤ min_age then
    (self, .deny .NO_DELTA)
  else
    (self, .allow)

/-- Model of `TimeWindowBarrier.force_next()`. -/
def TimeWindowBarrier.force_next (s : TWState) : TWState :=
  { s with force_next := true }

/-- Model of `TimeWindowBarrier.success(now)`. -/
def TimeWindowBarrier.success (s : TWState) (now : ℤ) : TWState :=
  { s with force_next := false, failures := 0, last_success := now }

/-- Model of `TimeWindowBarrier.fail(now)`. -/
def TimeWindowBarrier.fail (cfg : TWConfig) (s : TWState) (now : ℤ) : TWState :=
  let failures := s.failures + 1
  if failures ≥ cfg.max_retries then
    { s with failures := failures, force_next := false,
             cooldown := now + cfg.max_age / 2 }
  else
    { s with failures := failures }

/-- Model of the `TimeWindowBarrier.dump` property. -/
def TimeWindowBarrier.dump (cfg : TWConfig) (s : TWState) :
    List (String × AttrValue) :=
  [ (ATTR_MAX_AGE, .duration cfg.max_age),
    (ATTR_MAX_RETRIES, .intVal cfg.max_retries),
    (ATTR_ALLOWED_WINDOW_MINUTES, .windowVal cfg.allowed_window_minutes),
    (ATTR_COOLDOWN, .timestamp s.cooldown),
    (ATTR_FORCED, .boolVal s.force_next),
    (ATTR_LAST_SUCCESS, .timestamp s.last_success),
    (ATTR_RETRY, .intVal s.failures) ]

/-- Mutable state of a `TimeDeltaBarrier`: `_last_success`
(initialised to `utc_from_timestamp(0)` when not supplied). -/
structure TDState where
  last_success : ℤ
deriving DecidableEq

def TDState.init : TDState :=
  { last_success := 0 }

/-- Model of `TimeDeltaBarrier.check(now)`: deny `NO_MAX_AGE` when
`now - last_success < delta`, otherwise allow.  It writes no state. -/
def TimeDeltaBarrier.check (delta : ℤ) (s : TDState) (now : ℤ) :
    CheckResult TimeDeltaBarrierDenyError :=
  let diff := now - s.last_success
  if diff < delta then .deny .NO_MAX_AGE else .allow

/-- Model of `TimeDeltaBarrier.success(now)`. -/
def TimeDeltaBarrier.success (s : TDState) (now : ℤ) : TDState :=
  { s with last_success := now }

/-- Model of `TimeDeltaBarrier.fail(now)`: a no-op. -/
def TimeDeltaBarrier.fail (s : TDState) (_now : ℤ) : TDState :=
  s

/-- Model of `TimeDeltaBarrier.dump()`. -/
def TimeDeltaBarrier.dump (delta : ℤ) (s : TDState) :
    List (String × AttrValue) :=
  [ (ATTR_MAX_AGE, .duration delta),
    (ATTR_LAST_SUCCESS, .timestamp s.last_success) ]

/-- Model of `NoopBarrier.check()`: always allows. -/
def NoopBarrier.check : CheckResult Empty :=
  .allow

/-- Model of `NoopBarrier.dump()`: the empty mapping. -/
def NoopBarrier.dump : List (String × AttrValue) :=
  []

/-- One call of the `TimeWindowBarrier` public interface. -/
inductive BarrierCall where
  | check (now : ℤ)
  | success (now : ℤ)
  | fail (now : ℤ)
  | force_next
deriving DecidableEq

/-- Apply one interface call to a `TimeWindowBarrier` state (for `check`,
keep the possibly reset state and discard the decision). -/
def applyCall (cfg : TWConfig) (s : TWState) : BarrierCall → TWState
  | .check now => (TimeWindowBarrier.check cfg s now).1
  | .success now => TimeWindowBarrier.success s now
  | .fail now => TimeWindowBarrier.fail cfg s now
  | .force_next => TimeWindowBarrier.force_next s

/-- Run a sequence of interface calls from a starting state. -/
def runCalls (cfg : TWConfig) (s : TWState) (cs : List BarrierCall) : TWState :=
  cs.foldl (applyCall cfg) s

/-- The decision reached by rules 5 and 6 of `check` alone (update
window, then minimum delta), with no cooldown, retry or force input:
what `check` evaluates once the earlier rules fall through. -/
def windowDeltaDecision (cfg : TWConfig) (s : TWState) (now : ℤ) :
    CheckResult TimeWindowBarrierDenyError :=
  if ¬ (decide (cfg.allowed_window_minutes.1 ≤ as_local_minute cfg.tz_offset now) &&
        decide (as_local_minute cfg.tz_offset now ≤ cfg.allowed_window_minutes.2)) then
    .deny .UPDATE_WINDOW_CLOSED
  else if now - s.last_success ≤
      (cfg.allowed_window_minutes.2 - cfg.allowed_window_minutes.1) * 60 then
    .deny .NO_DELTA
  else
    .allow

/-! ### Helper lemmas about `TimeWindowBarrier.check`

`check` is the faithful translation above; for proofs it is convenient to
split it into the state written by the lazy cooldown reset
(`resetState`) and the decision chain evaluated on that state
(`checkBody`), and to relate the three by `check_eq`. -/

/-- The state after the lazy cooldown reset at the top of `check`. -/
def TimeWindowBarrier.resetState (cfg : TWConfig) (s : TWState) (now : ℤ) :
    TWState :=
  if s.failures ≥ cfg.max_retries ∧ now ≥ s.cooldown then
    { s with failures := 0 }
  else s

/-- Rules 2-7 of `check` (forced, cooldown, retrying, update window,
no delta, allow), evaluated on an already-reset state `t`. -/
def TimeWindowBarrier.checkBody (cfg : TWConfig) (t : TWState) (now : ℤ) :
    TWState × CheckResult TimeWindowBarrierDenyError :=
  if t.force_next then
    (t, .allow)
  else if now < t.cooldown then
    (t, .deny .COOLDOWN)
  else if t.failures > 0 ∧ t.failures < cfg.max_retries then
    (t, .allow)
  else if ¬ (decide (cfg.allowed_window_minutes.1 ≤
               as_local_minute cfg.tz_offset now) &&
             decide (as_local_minute cfg.tz_offset now ≤
               cfg.allowed_window_minutes.2)) then
    (t, .deny .UPDATE_WINDOW_CLOSED)
  else if now - t.last_success ≤
      (cfg.allowed_window_minutes.2 - cfg.allowed_window_minutes.1) * 60 then
    (t, .deny .NO_DELTA)
  else
    (t, .allow)

theorem TimeWindowBarrier.check_eq (cfg : TWConfig) (s : TWState) (now : ℤ) :
    TimeWindowBarrier.check cfg s now =
      TimeWindowBarrier.checkBody cfg (TimeWindowBarrier.resetState cfg s now) now := by
  unfold TimeWindowBarrier.check TimeWindowBarrier.checkBody TimeWindowBarrier.resetState
  by_cases h : s.failures ≥ cfg.max_retries ∧ now ≥ s.cooldown
  · simp only [if_pos h]
  · simp only [if_neg h]

theorem TimeWindowBarrier.checkBody_fst (cfg : TWConfig) (t : TWState) (now : ℤ) :
    (TimeWindowBarrier.checkBody cfg t now).1 = t := by
  unfold TimeWindowBarrier.checkBody
  split_ifs <;> rfl

theorem TimeWindowBarrier.check_fst (cfg : TWConfig) (s : TWState) (now : ℤ) :
    (TimeWindowBarrier.check cfg s now).1 =
      TimeWindowBarrier.resetState cfg s now := by
  rw [TimeWindowBarrier.check_eq, TimeWindowBarrier.checkBody_fst]

/-- Unfolded form of `TimeWindowBarrier.fail`. -/
theorem TimeWindowBarrier.fail_eq (cfg : TWConfig) (s : TWState) (now : ℤ) :
    TimeWindowBarrier.fail cfg s now =
      if s.failures + 1 ≥ cfg.max_retries then
        { s with failures := s.failures + 1, force_next := false,
                 cooldown := now + cfg.max_age / 2 }
      else
        { s with failures := s.failures + 1 } := by
  rfl

/-! ### Claim C1 -/

def cfgC1 : TWConfig :=
  { allowed_window_minutes := (0, 10), max_retries := 1, max_age := 7200,
    tz_offset := 0 }

def sC1 : TWState :=
  { force_next := false, failures := 1, last_success := 0, cooldown := 0 }

/-- C1 is false as stated: with `failures = max_retries = 1` and
`now = 0 ≥ cooldown = 0`, `check` performs the lazy cooldown reset and
writes `failures`, so the state is not left unchanged by `check`. -/
theorem tw_check_mutates_failures :
    (TimeWindowBarrier.check cfgC1 sC1 0).1.failures ≠ sC1.failures := by
  decide

/-- C1 (amended): for every `TimeWindowBarrier` state and timestamp,
`check(now)` leaves `force_next`, `last_success` and `cooldown`
unchanged; `failures` is also unchanged unless `failures ≥ max_retries`
and `now ≥ cooldown` held at entry, in which case the lazy cooldown
reset sets `failures` to `0`. -/
theorem tw_check_frame (cfg : TWConfig) (s : TWState) (now : ℤ) :
    (TimeWindowBarrier.check cfg s now).1.force_next = s.force_next ∧
    (TimeWindowBarrier.check cfg s now).1.last_success = s.last_success ∧
    (TimeWindowBarrier.check cfg s now).1.cooldown = s.cooldown ∧
    (TimeWindowBarrier.check cfg s now).1.failures =
      (if s.failures ≥ cfg.max_retries ∧ now ≥ s.cooldown then 0
       else s.failures) := by
  rw [TimeWindowBarrier.check_fst]
  unfold TimeWindowBarrier.resetState
  split_ifs <;> exact ⟨rfl, rfl, rfl, rfl⟩

/-- Closed instance of `tw_check_frame`. -/
theorem tw_check_frame_witness :
    (TimeWindowBarrier.check cfgC1 sC1 0).1.cooldown = sC1.cooldown ∧
    (TimeWindowBarrier.check cfgC1 sC1 0).1.failures = 0 := by
  have h := tw_check_frame cfgC1 sC1 0
  exact ⟨h.2.2.1, h.2.2.2.trans (by decide)⟩

/-! ### Claim C2 -/

theorem applyCall_failures_nonneg (cfg : TWConfig) (s : TWState)
    (c : BarrierCall) (h : 0 ≤ s.failures) :
    0 ≤ (applyCall cfg s c).failures := by
  cases c with
  | check now =>
      show 0 ≤ (TimeWindowBarrier.check cfg s now).1.failures
      rw [TimeWindowBarrier.check_fst]
      unfold TimeWindowBarrier.resetState
      split_ifs
      · exact le_refl 0
      · exact h
  | success now => exact le_refl 0
  | fail now =>
      show 0 ≤ (TimeWindowBarrier.fail cfg s now).failures
      rw [TimeWindowBarrier.fail_eq]
      split_ifs
      · show 0 ≤ s.failures + 1
        omega
      · show 0 ≤ s.failures + 1
        omega
  | force_next => exact h

theorem runCalls_failures_nonneg (cfg : TWConfig) (s : TWState)
    (cs : List BarrierCall) (h : 0 ≤ s.failures) :
    0 ≤ (runCalls cfg s cs).failures := by
  induction cs generalizing s with
  | nil => exact h
  | cons c cs ih => exact ih _ (applyCall_failures_nonneg cfg s c h)

def cfgC2 : TWConfig :=
  { allowed_window_minutes := (0, 10), max_retries := 1, max_age := 7200,
    tz_offset := 0 }

/-- C2 is false as stated: with positive `max_retries = 1`, two `fail`
calls from the initial state (no intervening `check` or `success`) leave
`failures = 2 > max_retries`, breaking the claimed upper bound. -/
theorem tw_failures_can_exceed_max_retries :
    0 < cfgC2.max_retries ∧
    cfgC2.max_retries <
      (runCalls cfgC2 TWState.init
        [BarrierCall.fail 0, BarrierCall.fail 0]).failures := by
  decide

/-- C2 (amended): for every configuration and every finite sequence of
`check`/`success`/`fail`/`force_next` calls from the initial state,
`0 ≤ failures` holds after every call; the upper bound
`failures ≤ max_retries` does not hold in general. -/
theorem tw_failures_nonneg (cfg : TWConfig) (cs : List BarrierCall) :
    0 ≤ (runCalls cfg TWState.init cs).failures :=
  runCalls_failures_nonneg cfg TWState.init cs (le_refl 0)

/-- Closed instance of `tw_failures_nonneg`. -/
theorem tw_failures_nonneg_witness :
    0 ≤ (runCalls cfgC2 TWState.init
      [BarrierCall.fail 0, BarrierCall.check 1, BarrierCall.success 2]).failures :=
  tw_failures_nonneg cfgC2
    [BarrierCall.fail 0, BarrierCall.check 1, BarrierCall.success 2]

/-! ### Claim C5 -/

/-- C5: `fail(now)` increments `failures` by exactly one and never
touches `last_success`; if the incremented value reaches `max_retries`
it clears `force_next` and sets `cooldown = now + max_age / 2`;
otherwise `force_next` and `cooldown` keep their previous values. -/
theorem tw_fail_semantics (cfg : TWConfig) (s : TWState) (now : ℤ) :
    (TimeWindowBarrier.fail cfg s now).failures = s.failures + 1 ∧
    (TimeWindowBarrier.fail cfg s now).last_success = s.last_success ∧
    (s.failures + 1 ≥ cfg.max_retries →
      (TimeWindowBarrier.fail cfg s now).force_next = false ∧
      (TimeWindowBarrier.fail cfg s now).cooldown = now + cfg.max_age / 2) ∧
    (s.failures + 1 < cfg.max_retries →
      (TimeWindowBarrier.fail cfg s now).force_next = s.force_next ∧
      (TimeWindowBarrier.fail cfg s now).cooldown = s.cooldown) := by
  rw [TimeWindowBarrier.fail_eq]
  split_ifs with h
  · exact ⟨rfl, rfl, fun _ => ⟨rfl, rfl⟩, fun hlt => absurd h (by omega)⟩
  · exact ⟨rfl, rfl, fun hge => absurd hge h, fun _ => ⟨rfl, rfl⟩⟩

def cfgC5 : TWConfig :=
  { allowed_window_minutes := (0, 10), max_retries := 3, max_age := 7200,
    tz_offset := 0 }

def sC5 : TWState :=
  { force_next := true, failures := 2, last_success := 5, cooldown := 0 }

/-- Closed instance of `tw_fail_semantics` (terminal failure). -/
theorem tw_fail_semantics_witness :
    (TimeWindowBarrier.fail cfgC5 sC5 10).failures = 3 ∧
    (TimeWindowBarrier.fail cfgC5 sC5 10).last_success = 5 ∧
    (TimeWindowBarrier.fail cfgC5 sC5 10).force_next = false ∧
    (TimeWindowBarrier.fail cfgC5 sC5 10).cooldown = 10 + cfgC5.max_age / 2 := by
  have h := tw_fail_semantics cfgC5 sC5 10
  exact ⟨h.1, h.2.1, (h.2.2.1 (by decide)).1, (h.2.2.1 (by decide)).2⟩

/-! ### Claim C4 -/

/-- C4: if `force_next` is set, `check` allows — for every timestamp,
including during an active cooldown — and does not clear the flag
(`check` never changes `force_next` in any state); the flag is cleared
by `success` and by a `fail` whose new failure count reaches
`max_retries`, while a non-terminal `fail` leaves it untouched. -/
theorem tw_force_next_semantics (cfg : TWConfig) (s : TWState) (now : ℤ) :
    (s.force_next = true →
      (TimeWindowBarrier.check cfg s now).2 = .allow) ∧
    (TimeWindowBarrier.check cfg s now).1.force_next = s.force_next ∧
    (TimeWindowBarrier.success s now).force_next = false ∧
    (TimeWindowBarrier.fail cfg s now).force_next =
      (if s.failures + 1 ≥ cfg.max_retries then false else s.force_next) := by
  refine ⟨fun h => ?_, ?_, rfl, ?_⟩
  · rw [TimeWindowBarrier.check_eq]
    have h1 : (TimeWindowBarrier.resetState cfg s now).force_next = true := by
      unfold TimeWindowBarrier.resetState
      split_ifs <;> exact h
    unfold TimeWindowBarrier.checkBody
    rw [if_pos h1]
  · rw [TimeWindowBarrier.check_fst]
    unfold TimeWindowBarrier.resetState
    split_ifs <;> rfl
  · rw [TimeWindowBarrier.fail_eq]
    split_ifs <;> rfl

def cfgC4 : TWConfig :=
  { allowed_window_minutes := (0, 10), max_retries := 3, max_age := 7200,
    tz_offset := 0 }

def sC4 : TWState :=
  { force_next := true, failures := 1, last_success := 0, cooldown := 1000 }

/-- Closed instance of `tw_force_next_semantics`: a forced `check` during
an active cooldown (`now = 50 < cooldown = 1000`) allows and keeps the
flag, and a non-terminal `fail` (`failures` 1 → 2 < 3) keeps it too. -/
theorem tw_force_next_semantics_witness :
    (50 : ℤ) < sC4.cooldown ∧
    (TimeWindowBarrier.check cfgC4 sC4 50).2 = .allow ∧
    (TimeWindowBarrier.check cfgC4 sC4 50).1.force_next = true ∧
    (TimeWindowBarrier.fail cfgC4 sC4 50).force_next = true := by
  have h := tw_force_next_semantics cfgC4 sC4 50
  exact ⟨by decide, h.1 rfl, h.2.1, h.2.2.2⟩

/-! ### Claim C7 -/

/-- C7: `TimeDeltaBarrier.check(now)` denies with `NO_MAX_AGE` iff
`now - last_success < delta` and allows otherwise — a pure function of
`(now, last_success, delta)`, which are exactly its arguments;
`success(now)` sets `last_success` to `now`; `fail(now)` changes
nothing. -/
theorem td_barrier_semantics (delta : ℤ) (s : TDState) (now : ℤ) :
    (TimeDeltaBarrier.check delta s now = .deny .NO_MAX_AGE ↔
      now - s.last_success < delta) ∧
    (TimeDeltaBarrier.check delta s now = .allow ↔
      ¬ (now - s.last_success < delta)) ∧
    (TimeDeltaBarrier.success s now).last_success = now ∧
    TimeDeltaBarrier.fail s now = s := by
  refine ⟨?_, ?_, rfl, rfl⟩ <;>
    · simp only [TimeDeltaBarrier.check]
      split_ifs with h <;> simp [h]

/-- Closed instance of `td_barrier_semantics`: both decision branches. -/
theorem td_barrier_semantics_witness :
    TimeDeltaBarrier.check 5 TDState.init 3 = .deny .NO_MAX_AGE ∧
    TimeDeltaBarrier.check 5 TDState.init 9 = .allow :=
  ⟨(td_barrier_semantics 5 TDState.init 3).1.mpr (by decide),
   (td_barrier_semantics 5 TDState.init 9).2.1.mpr (by decide)⟩

/-! ### Claim C9 -/

def cfgC9 : TWConfig :=
  { allowed_window_minutes := (5, 25), max_retries := 3, max_age := 7200,
    tz_offset := 0 }

/-- C9 is false as stated: the keys of `TimeWindowBarrier.dump` are not
the documented state field names — `force_next` is exported under the
key "forced" (`ATTR_FORCED`) and `failures` under "retry"
(`ATTR_RETRY`). -/
theorem tw_dump_keys_differ :
    ¬ ((TimeWindowBarrier.dump cfgC9 TWState.init).map Prod.fst =
        ["max_age", "max_retries", "allowed_window_minutes", "cooldown",
         "force_next", "last_success", "failures"]) := by
  decide

/-- C9 (amended): each `dump` is a pure read-only function of the
configuration and current state returning exactly the coded field set:
for `TimeWindowBarrier` the keys `max_age`, `max_retries`,
`allowed_window_minutes`, `cooldown`, `forced` (carrying `force_next`),
`last_success` and `retry` (carrying `failures`); for `TimeDeltaBarrier`
exactly `max_age` (carrying `delta`) and `last_success`; for
`NoopBarrier` the empty mapping. -/
theorem dump_field_sets (cfg : TWConfig) (s : TWState) (delta : ℤ)
    (t : TDState) :
    TimeWindowBarrier.dump cfg s =
      [ ("max_age", AttrValue.duration cfg.max_age),
        ("max_retries", AttrValue.intVal cfg.max_retries),
        ("allowed_window_minutes", AttrValue.windowVal cfg.allowed_window_minutes),
        ("cooldown", AttrValue.timestamp s.cooldown),
        ("forced", AttrValue.boolVal s.force_next),
        ("last_success", AttrValue.timestamp s.last_success),
        ("retry", AttrValue.intVal s.failures) ] ∧
    TimeDeltaBarrier.dump delta t =
      [ ("max_age", AttrValue.duration delta),
        ("last_success", AttrValue.timestamp t.last_success) ] ∧
    NoopBarrier.dump = [] :=
  ⟨rfl, rfl, rfl⟩

/-- Closed instance of `dump_field_sets`. -/
theorem dump_field_sets_witness :
    TimeWindowBarrier.dump cfgC9 TWState.init =
      [ ("max_age", AttrValue.duration 7200),
        ("max_retries", AttrValue.intVal 3),
        ("allowed_window_minutes", AttrValue.windowVal (5, 25)),
        ("cooldown", AttrValue.timestamp 0),
        ("forced", AttrValue.boolVal false),
        ("last_success", AttrValue.timestamp 0),
        ("retry", AttrValue.intVal 0) ] :=
  (dump_field_sets cfgC9 TWState.init 0 TDState.init).1

/-! ### Claim C10 -/

/-- C10: `success(now)` clears `force_next`, zeroes `failures` and
records `last_success := now`, but leaves `cooldown` unchanged; hence
any later `check(now')` with `now' < cooldown` (on the post-`success`
state, whose `force_next` is false) still denies with `COOLDOWN` even
though the most recent attempt was reported as a success. -/
theorem tw_success_keeps_cooldown (cfg : TWConfig) (s : TWState) (now : ℤ) :
    (TimeWindowBarrier.success s now).cooldown = s.cooldown ∧
    (TimeWindowBarrier.success s now).force_next = false ∧
    (TimeWindowBarrier.success s now).failures = 0 ∧
    (TimeWindowBarrier.success s now).last_success = now ∧
    ∀ now' : ℤ, now' < s.cooldown →
      (TimeWindowBarrier.check cfg (TimeWindowBarrier.success s now) now').2 =
        .deny .COOLDOWN := by
  refine ⟨rfl, rfl, rfl, rfl, fun now' h => ?_⟩
  rw [TimeWindowBarrier.check_eq]
  have hreset : TimeWindowBarrier.resetState cfg
      (TimeWindowBarrier.success s now) now' = TimeWindowBarrier.success s now := by
    unfold TimeWindowBarrier.resetState
    rw [if_neg]
    rintro ⟨-, hc⟩
    exact absurd h (not_lt.mpr hc)
  rw [hreset]
  have h1 : ¬ ((TimeWindowBarrier.success s now).force_next = true) := by
    simp [TimeWindowBarrier.success]
  have h2 : now' < (TimeWindowBarrier.success s now).cooldown := h
  unfold TimeWindowBarrier.checkBody
  rw [if_neg h1, if_pos h2]

def cfgC10 : TWConfig :=
  { allowed_window_minutes := (0, 10), max_retries := 3, max_age := 7200,
    tz_offset := 0 }

def sC10 : TWState :=
  { force_next := false, failures := 2, last_success := 0, cooldown := 1000 }

/-- Closed instance of `tw_success_keeps_cooldown`: after `success(10)`,
`check(20)` with `20 < cooldown = 1000` still denies `COOLDOWN`. -/
theorem tw_success_keeps_cooldown_witness :
    (TimeWindowBarrier.success sC10 10).cooldown = 1000 ∧
    (TimeWindowBarrier.check cfgC10 (TimeWindowBarrier.success sC10 10) 20).2 =
      .deny .COOLDOWN := by
  have h := tw_success_keeps_cooldown cfgC10 sC10 10
  exact ⟨h.1, h.2.2.2.2 20 (by decide)⟩

/-! ### Claim C3 -/

/-- C3: with `force_next` false and `failures ≥ max_retries` (the
terminal fail set `cooldown`): `check(now)` with `now < cooldown` denies
`COOLDOWN`; `check(now)` with `now ≥ cooldown` lazily resets `failures`
to 0 and its decision is exactly the window/delta evaluation of rules
5-6 — the reset itself neither allows nor denies. -/
theorem tw_cooldown_semantics (cfg : TWConfig) (s : TWState) (now : ℤ)
    (hf : s.force_next = false) (hr : s.failures ≥ cfg.max_retries) :
    (now < s.cooldown →
      (TimeWindowBarrier.check cfg s now).2 = .deny .COOLDOWN) ∧
    (now ≥ s.cooldown →
      (TimeWindowBarrier.check cfg s now).1.failures = 0 ∧
      (TimeWindowBarrier.check cfg s now).2 =
        windowDeltaDecision cfg s now) := by
  constructor
  · intro hc
    rw [TimeWindowBarrier.check_eq]
    have hreset : TimeWindowBarrier.resetState cfg s now = s := by
      unfold TimeWindowBarrier.resetState
      rw [if_neg]
      rintro ⟨-, hge⟩
      exact absurd hc (not_lt.mpr hge)
    rw [hreset]
    unfold TimeWindowBarrier.checkBody
    rw [if_neg (by simp [hf]), if_pos hc]
  · intro hge
    have hreset : TimeWindowBarrier.resetState cfg s now =
        { s with failures := 0 } := by
      unfold TimeWindowBarrier.resetState
      rw [if_pos ⟨hr, hge⟩]
    refine ⟨?_, ?_⟩
    · rw [TimeWindowBarrier.check_fst, hreset]
    · rw [TimeWindowBarrier.check_eq, hreset]
      unfold TimeWindowBarrier.checkBody windowDeltaDecision
      rw [if_neg (by simp [hf]), if_neg (not_lt.mpr hge), if_neg (by simp)]
      dsimp only
      split_ifs <;> rfl

def cfgC3 : TWConfig :=
  { allowed_window_minutes := (0, 10), max_retries := 3, max_age := 7200,
    tz_offset := 0 }

def sC3 : TWState :=
  runCalls cfgC3 TWState.init
    [BarrierCall.fail 100, BarrierCall.fail 100, BarrierCall.fail 100]

/-- Closed instance of `tw_cooldown_semantics`, scenario C: three `fail`
calls at `t = 100` with `max_retries = 3` put `cooldown = 3700`;
`check(100)` denies `COOLDOWN`; `check(3700)` resets `failures` and
evaluates the window/delta rules (which here allow: minute 1 lies inside
the window and the last-success age 3700 exceeds the 600-second window
width). -/
theorem tw_cooldown_semantics_witness :
    (TimeWindowBarrier.check cfgC3 sC3 100).2 = .deny .COOLDOWN ∧
    (TimeWindowBarrier.check cfgC3 sC3 3700).1.failures = 0 ∧
    (TimeWindowBarrier.check cfgC3 sC3 3700).2 =
      windowDeltaDecision cfgC3 sC3 3700 ∧
    windowDeltaDecision cfgC3 sC3 3700 = .allow := by
  refine ⟨(tw_cooldown_semantics cfgC3 sC3 100 (by decide) (by decide)).1
      (by decide),
    ((tw_cooldown_semantics cfgC3 sC3 3700 (by decide) (by decide)).2
      (by decide)).1,
    ((tw_cooldown_semantics cfgC3 sC3 3700 (by decide) (by decide)).2
      (by decide)).2,
    by decide⟩

/-! ### Claim C6 -/

/-- C6: with `force_next` false, `failures = 0`, `now ≥ cooldown`, and
the local minute of `now` inside the inclusive allowed window:
`check(now)` denies `NO_DELTA` iff
`now - last_success ≤ (high - low) * 60` seconds, and allows
otherwise. -/
theorem tw_no_delta_iff (cfg : TWConfig) (s : TWState) (now : ℤ)
    (hf : s.force_next = false) (h0 : s.failures = 0)
    (hc : now ≥ s.cooldown)
    (hw1 : cfg.allowed_window_minutes.1 ≤ as_local_minute cfg.tz_offset now)
    (hw2 : as_local_minute cfg.tz_offset now ≤ cfg.allowed_window_minutes.2) :
    ((TimeWindowBarrier.check cfg s now).2 = .deny .NO_DELTA ↔
      now - s.last_success ≤
        (cfg.allowed_window_minutes.2 - cfg.allowed_window_minutes.1) * 60) ∧
    ((TimeWindowBarrier.check cfg s now).2 = .allow ↔
      ¬ (now - s.last_success ≤
        (cfg.allowed_window_minutes.2 - cfg.allowed_window_minutes.1) * 60)) := by
  rw [TimeWindowBarrier.check_eq]
  have hreset : TimeWindowBarrier.resetState cfg s now = s := by
    unfold TimeWindowBarrier.resetState
    split_ifs
    · cases s
      simp_all
    · rfl
  rw [hreset]
  unfold TimeWindowBarrier.checkBody
  rw [if_neg (by simp [hf]), if_neg (not_lt.mpr hc), if_neg (by simp [h0]),
      if_neg (by simp [hw1, hw2])]
  split_ifs with h <;> simp [h]

def cfgC6 : TWConfig :=
  { allowed_window_minutes := (0, 10), max_retries := 3, max_age := 7200,
    tz_offset := 0 }

def sC6 : TWState :=
  TimeWindowBarrier.success TWState.init 120

/-- Closed instance of `tw_no_delta_iff`, scenario B: after
`success(120)` inside the open window (minute 2), `check(121)` denies
`NO_DELTA` because the 1-second age is below the 600-second window
width. -/
theorem tw_no_delta_iff_witness :
    (TimeWindowBarrier.check cfgC6 sC6 121).2 = .deny .NO_DELTA :=
  (tw_no_delta_iff cfgC6 sC6 121 (by decide) (by decide) (by decide)
    (by decide) (by decide)).1.mpr (by decide)

/-! ### Claim C8 -/

/-- C8: the decision of `check` is stable under repetition: a second
`check` at the same `now`, run on the state the first call left behind
(no intervening `success`/`fail`/`force_next`), returns the same
decision — also when the first call performed the lazy cooldown
reset. -/
theorem tw_check_decision_stable (cfg : TWConfig) (s : TWState) (now : ℤ) :
    (TimeWindowBarrier.check cfg (TimeWindowBarrier.check cfg s now).1 now).2 =
      (TimeWindowBarrier.check cfg s now).2 := by
  rw [TimeWindowBarrier.check_fst]
  rw [TimeWindowBarrier.check_eq, TimeWindowBarrier.check_eq]
  have hidem : TimeWindowBarrier.resetState cfg
      (TimeWindowBarrier.resetState cfg s now) now =
      TimeWindowBarrier.resetState cfg s now := by
    unfold TimeWindowBarrier.resetState
    by_cases h : s.failures ≥ cfg.max_retries ∧ now ≥ s.cooldown
    · simp only [if_pos h]
      split_ifs <;> rfl
    · simp only [if_neg h]
  rw [hidem]

/-- Closed instance of `tw_check_decision_stable`: repeating the
`check` that performed the lazy reset in `tw_check_mutates_failures`'s
scenario yields the same decision. -/
theorem tw_check_decision_stable_witness :
    (TimeWindowBarrier.check cfgC2
        (TimeWindowBarrier.check cfgC2
          { force_next := false, failures := 1, last_success := 0,
            cooldown := 0 } 0).1 0).2 =
      (TimeWindowBarrier.check cfgC2
        { force_next := false, failures := 1, last_success := 0,
          cooldown := 0 } 0).2 :=
  tw_check_decision_stable cfgC2
    { force_next := false, failures := 1, last_success := 0, cooldown := 0 } 0
